import Mathlib

/-!
Verification of the numberAuth service (src/app.py): a phone-number identity
verifier built from a TTL-based SQLite lookup cache, a Twilio-backed name
resolver, and per-number / bulk verification endpoints.

The embedding models the SQLite table `lookup_cache` as a list of rows (the
PRIMARY KEY constraint is realised, as in SQLite, by INSERT OR REPLACE
deleting conflicting rows), timestamps as integers, and the external Twilio
lookup as a function returning either an error detail (a raised exception)
or an optional caller name.  Python truthiness of strings (`if name:`) is
modelled explicitly: `None` and `""` are falsy.
-/

namespace NumberAuth

/-- A row of the SQLite table `lookup_cache (phone_number TEXT PRIMARY KEY,
name TEXT, timestamp INTEGER)` from src/app.py. -/
structure Row where
  phone_number : String
  name : String
  timestamp : Int
deriving DecidableEq, Repr

/-- The cache table: a list of rows.  Key uniqueness is maintained by the
operations (INSERT OR REPLACE), not assumed. -/
abbrev Table := List Row

/-- Python truthiness of a string: `if s:` is false exactly for `""`. -/
def truthyStr (s : String) : Bool := !s.isEmpty

/-- Python truthiness of an optional string: `None` and `""` are falsy. -/
def truthyOpt : Option String → Bool
  | none => false
  | some s => truthyStr s

/-- `get_cached_name` (src/app.py lines 55-70): SELECT the row for the phone
number; if it exists and `now - ts < CACHE_TTL_SECONDS`, return the stored
name; if it exists but is expired, DELETE it and return `None`; otherwise
return `None`.  Returns the result together with the table after the
conditional eviction. -/
def get_cached_name (now ttl : Int) (st : Table) (phone_number : String) :
    Option String × Table :=
  match st.find? (fun r => r.phone_number == phone_number) with
  | some r =>
      if now - r.timestamp < ttl then (some r.name, st)
      else (none, st.filter (fun r => r.phone_number != phone_number))
  | none => (none, st)

/-- `cache_name` (src/app.py lines 73-79): INSERT OR REPLACE the row for the
phone number with the current timestamp.  SQLite's INSERT OR REPLACE deletes
any row conflicting on the primary key, then inserts the new row. -/
def cache_name (now : Int) (st : Table) (phone_number name : String) : Table :=
  st.filter (fun r => r.phone_number != phone_number) ++ [⟨phone_number, name, now⟩]

/-- The external Twilio lookup: given a phone number, either raises an
exception carrying a detail string, or returns the (optional) caller name. -/
abbrev Provider := String → Except String (Option String)

/-- Outcome of one `fetch_caller_name_with_cache` call: the returned value
(or the raised exception detail), the cache table afterwards (mutations made
before an exception are committed), and how many external provider calls
were issued (0 or 1). -/
structure FetchOut where
  result : Except String (Option String)
  rows : Table
  providerCalls : Nat
deriving Repr

/-- `fetch_caller_name_with_cache` (src/app.py lines 82-93): consult the
cache; a truthy cached value is returned immediately.  Otherwise call the
Twilio provider once; if it returns a truthy caller name, `cache_name` it
before returning; a falsy caller name is returned without caching. -/
def fetch_caller_name_with_cache (provider : Provider) (now ttl : Int)
    (st : Table) (phone_number : String) : FetchOut :=
  let g := get_cached_name now ttl st phone_number
  if truthyOpt g.1 then ⟨.ok g.1, g.2, 0⟩
  else
    match provider phone_number with
    | .error e => ⟨.error e, g.2, 1⟩
    | .ok caller_name =>
        match caller_name with
        | some n =>
            if truthyStr n then ⟨.ok caller_name, cache_name now g.2 phone_number n, 1⟩
            else ⟨.ok caller_name, g.2, 1⟩
        | none => ⟨.ok caller_name, g.2, 1⟩

/-- `fetch_caller_name_with_cache` when the SQLite storage may fail:
`get_cached_name` has no exception handler, so a storage error raised by its
first `cursor.execute` propagates out of `fetch_caller_name_with_cache`
before any mutation or provider call.  `storageErr = none` is healthy
storage. -/
def fetch_caller_name_with_cache_failing (storageErr : Option String)
    (provider : Provider) (now ttl : Int) (st : Table) (phone_number : String) :
    FetchOut :=
  match storageErr with
  | some e => ⟨.error e, st, 0⟩
  | none => fetch_caller_name_with_cache provider now ttl st phone_number

/-- Python dict insertion for string keys: an existing key keeps its
position but takes the new value; a new key is appended. -/
def dictInsert (d : List (String × String)) (k v : String) :
    List (String × String) :=
  if d.any (fun kv => kv.1 == k) then
    d.map (fun kv => if kv.1 == k then (k, v) else kv)
  else d ++ [(k, v)]

/-- The dict comprehension
`{user["phone_number"]: user["name"] for user in users}`:
build a dict from the JSON array, later duplicates overwriting earlier
values. -/
def dictOfPairs (users : List (String × String)) : List (String × String) :=
  users.foldl (fun d kv => dictInsert d kv.1 kv.2) []

/-- Python `dict.get(key)`: the stored value, or `None` when absent. -/
def dictGet (d : List (String × String)) (k : String) : Option String :=
  (d.find? (fun kv => kv.1 == k)).map (fun kv => kv.2)

/-- `local_mock_database` (src/app.py lines 49-52), also the user list served
by the mock Solidarity Tech endpoint (lines 100-109). -/
def local_mock_database : List (String × String) :=
  [("+15551234567", "John Doe"), ("+15557654321", "Jane Smith")]

/-- The distinct responses of the `/verify_identity` route
(src/app.py lines 150-195), one constructor per `return` branch. -/
inductive VerifyResponse where
  | missingParam : VerifyResponse
  | dirUnavailable : String → VerifyResponse
  | notFoundInDb : VerifyResponse
  | lookupFailed : String → VerifyResponse
  | verified : VerifyResponse
  | invalid : VerifyResponse
deriving DecidableEq, Repr

/-- The HTTP status code each `/verify_identity` branch returns. -/
def VerifyResponse.statusCode : VerifyResponse → Nat
  | .missingParam => 400
  | .dirUnavailable _ => 500
  | .notFoundInDb => 404
  | .lookupFailed _ => 500
  | .verified => 200
  | .invalid => 200

/-- `verify_identity` (src/app.py lines 150-195).  `phone_number` is the
query parameter (`none` when missing; the empty string is falsy, hence also
a 400).  `dirFetch` is the outcome of obtaining the user list (the HTTP GET
to the Solidarity Tech API, or the local mock database): `.error e` is a
`RequestException`.  A falsy `claimed_name` (absent key, or empty value) is
the 404 branch.  Then the cache-backed lookup runs: an exception from it is
returned as a 500; otherwise `Identity Verified` exactly when the caller
name is truthy and equal to the claimed name. -/
def verify_identity (storageErr : Option String) (provider : Provider)
    (dirFetch : Except String (List (String × String))) (now ttl : Int)
    (phone_number : Option String) (st : Table) : VerifyResponse × Table :=
  match phone_number with
  | none => (.missingParam, st)
  | some p =>
    if p.isEmpty then (.missingParam, st)
    else
      match dirFetch with
      | .error e => (.dirUnavailable e, st)
      | .ok users =>
        let user_data := dictOfPairs users
        match dictGet user_data p with
        | none => (.notFoundInDb, st)
        | some claimed_name =>
          if claimed_name.isEmpty then (.notFoundInDb, st)
          else
            let out := fetch_caller_name_with_cache_failing storageErr provider now ttl st p
            match out.result with
            | .error e => (.lookupFailed e, out.rows)
            | .ok caller_name =>
              match caller_name with
              | some cn =>
                  if truthyStr cn && cn == claimed_name then (.verified, out.rows)
                  else (.invalid, out.rows)
              | none => (.invalid, out.rows)

/-- One element of the JSON array returned by `/verify_all_identities`
(src/app.py lines 226-232 and 241-246).  `twilio_name` is `none` in the
exception branch (Python `None`) and otherwise the string
`caller_name or "Name not found or not available"`. -/
structure VerificationResult where
  phone_number : String
  claimed_name : String
  twilio_name : Option String
  status : String
  error_detail : Option String
deriving DecidableEq, Repr

/-- The body of the `for phone_number, claimed_name in user_data.items()`
loop of `verify_all_identities` (src/app.py lines 220-246) for one record,
threading the cache table. -/
def verify_record (provider : Provider) (now ttl : Int) (st : Table)
    (phone_number claimed_name : String) : VerificationResult × Table :=
  let out := fetch_caller_name_with_cache provider now ttl st phone_number
  match out.result with
  | .error e =>
      (⟨phone_number, claimed_name, none, "Twilio Lookup Error", some e⟩, out.rows)
  | .ok caller_name =>
      let status :=
        match caller_name with
        | some cn => if truthyStr cn && cn == claimed_name
                     then "Identity Verified" else "Identity Invalid"
        | none => "Identity Invalid"
      let twilio_name :=
        match caller_name with
        | some cn => if truthyStr cn then cn else "Name not found or not available"
        | none => "Name not found or not available"
      (⟨phone_number, claimed_name, some twilio_name, status, none⟩, out.rows)

/-- The whole loop of `verify_all_identities` over the dict items, in
enumeration order, threading the cache table; an exception on one record is
caught (`continue`) and the remaining records are still processed. -/
def verify_all_loop (provider : Provider) (now ttl : Int) :
    List (String × String) → Table → List VerificationResult × Table
  | [], st => ([], st)
  | (p, c) :: rest, st =>
      let r := verify_record provider now ttl st p c
      let rs := verify_all_loop provider now ttl rest r.2
      (r.1 :: rs.1, rs.2)

/-- `verify_all_identities` (src/app.py lines 198-248): obtain the user
dict (an unreachable Solidarity Tech API is a 500 error response), then run
the loop over its items. -/
def verify_all_identities (provider : Provider)
    (dirFetch : Except String (List (String × String))) (now ttl : Int)
    (st : Table) : Except String (List VerificationResult) × Table :=
  match dirFetch with
  | .error e => (.error e, st)
  | .ok users =>
      let res := verify_all_loop provider now ttl (dictOfPairs users) st
      (.ok res.1, res.2)

/-- The global interpreter state the routes share: the SQLite cache table
and the module-level global `stored_caller_name` (src/app.py line 33),
initially `None` and indistinguishable from a stored `None`. -/
structure AppState where
  rows : Table
  stored_caller_name : Option String
deriving Repr

/-- The distinct responses of the `/lookup` route (src/app.py lines
113-138). -/
inductive LookupResponse where
  | missingParam : LookupResponse
  | found : String → String → LookupResponse
  | notFound : String → LookupResponse
  | failed : String → LookupResponse
deriving DecidableEq, Repr

/-- `lookup_phone_number` (src/app.py lines 113-138): on a missing or empty
`phone_number` parameter, 400.  Otherwise fetch the caller name with the
cache; an exception is a 500 and leaves `stored_caller_name` untouched (the
assignment on line 129 is never reached); on success the global is
overwritten with the result, even when it is `None`, before the truthy check
chooses between the found and not-found 200 responses. -/
def lookup_phone_number (provider : Provider) (now ttl : Int)
    (phone_number : Option String) (st : AppState) :
    LookupResponse × AppState :=
  match phone_number with
  | none => (.missingParam, st)
  | some p =>
    if p.isEmpty then (.missingParam, st)
    else
      let out := fetch_caller_name_with_cache provider now ttl st.rows p
      match out.result with
      | .error e => (.failed e, { st with rows := out.rows })
      | .ok caller_name =>
          let st' : AppState := ⟨out.rows, caller_name⟩
          match caller_name with
          | some cn =>
              if truthyStr cn then (.found p cn, st')
              else (.notFound p, st')
          | none => (.notFound p, st')

/-- The two responses of `/get_caller_name` (src/app.py lines 141-147). -/
inductive CallerNameResponse where
  | ok : String → CallerNameResponse
  | notLookedUp : CallerNameResponse
deriving DecidableEq, Repr

/-- `get_caller_name` (src/app.py lines 141-147): 200 with the stored name
when it is truthy, else 404. -/
def get_caller_name (st : AppState) : CallerNameResponse :=
  match st.stored_caller_name with
  | some s => if truthyStr s then .ok s else .notLookedUp
  | none => .notLookedUp

/-- `verify_identity` lifted to the shared state: the route never reads or
writes the global `stored_caller_name` (no `global` statement and no
assignment to it occurs in src/app.py lines 150-195). -/
def verify_identity_app (storageErr : Option String) (provider : Provider)
    (dirFetch : Except String (List (String × String))) (now ttl : Int)
    (phone_number : Option String) (st : AppState) :
    VerifyResponse × AppState :=
  let r := verify_identity storageErr provider dirFetch now ttl phone_number st.rows
  (r.1, { st with rows := r.2 })

/-- `verify_all_identities` lifted to the shared state: the route never
reads or writes the global `stored_caller_name` (src/app.py lines
198-248). -/
def verify_all_identities_app (provider : Provider)
    (dirFetch : Except String (List (String × String))) (now ttl : Int)
    (st : AppState) : Except String (List VerificationResult) × AppState :=
  let r := verify_all_identities provider dirFetch now ttl st.rows
  (r.1, { st with rows := r.2 })

/-- At most one cache row per phone number: the PRIMARY KEY invariant. -/
def keyUnique (st : Table) : Prop :=
  ∀ k : String, st.countP (fun r => r.phone_number == k) ≤ 1

/-- Every cached name is non-empty: the invariant maintained by the
resolver, which only writes truthy caller names. -/
def namesNonEmpty (st : Table) : Prop :=
  ∀ r ∈ st, r.name ≠ ""

/-! ## Helper lemmas -/

theorem truthyStr_eq_false_iff (s : String) : truthyStr s = false ↔ s = "" := by
  simp [truthyStr, String.isEmpty_iff]

theorem truthyStr_eq_true_iff (s : String) : truthyStr s = true ↔ s ≠ "" := by
  constructor
  · intro h he
    rw [(truthyStr_eq_false_iff s).mpr he] at h
    exact Bool.false_ne_true h
  · intro h
    cases ht : truthyStr s
    · exact absurd ((truthyStr_eq_false_iff s).mp ht) h
    · rfl

theorem truthyOpt_eq_true_iff (o : Option String) :
    truthyOpt o = true ↔ ∃ s, o = some s ∧ s ≠ "" := by
  cases o with
  | none => simp [truthyOpt]
  | some s => simp [truthyOpt, truthyStr_eq_true_iff]

theorem find?_append_of_forall_false {α : Type} (p : α → Bool) (l₁ l₂ : List α)
    (h : ∀ a ∈ l₁, p a = false) : (l₁ ++ l₂).find? p = l₂.find? p := by
  induction l₁ with
  | nil => rfl
  | cons a l ih =>
      have ha := h a (List.mem_cons_self a l)
      simp only [List.cons_append, List.find?, ha]
      exact ih (fun x hx => h x (List.mem_cons_of_mem a hx))

theorem mem_filter_ne_key {st : Table} {k : String} {r : Row}
    (h : r ∈ st.filter (fun r => r.phone_number != k)) : r.phone_number ≠ k := by
  have := List.of_mem_filter h
  simpa [bne_iff_ne] using this

theorem find?_filter_ne_key (st : Table) (k : String) :
    (st.filter (fun r => r.phone_number != k)).find?
      (fun r => r.phone_number == k) = none := by
  rw [List.find?_eq_none]
  intro r hr
  simpa using mem_filter_ne_key hr

theorem find?_cache_name (st : Table) (k n : String) (t : Int) :
    (cache_name t st k n).find? (fun r => r.phone_number == k)
      = some ⟨k, n, t⟩ := by
  unfold cache_name
  rw [find?_append_of_forall_false]
  · simp [List.find?]
  · intro r hr
    simpa using mem_filter_ne_key hr

theorem countP_filter_le {α : Type} (p q : α → Bool) (l : List α) :
    (l.filter q).countP p ≤ l.countP p := by
  induction l with
  | nil => simp
  | cons a l ih =>
      cases hq : q a <;> cases hp : p a <;>
        simp [List.filter_cons, hq, hp, List.countP_cons] <;> omega

theorem get_cached_name_snd_cases (now ttl : Int) (st : Table) (phone : String) :
    (get_cached_name now ttl st phone).2 = st ∨
    (get_cached_name now ttl st phone).2
      = st.filter (fun r => r.phone_number != phone) := by
  unfold get_cached_name
  cases hfind : st.find? (fun r => r.phone_number == phone) with
  | none => simp
  | some r =>
      by_cases hts : now - r.timestamp < ttl
      · simp [hts]
      · simp [hts]

theorem fetch_rows_cases (provider : Provider) (now ttl : Int) (st : Table)
    (phone : String) :
    (fetch_caller_name_with_cache provider now ttl st phone).rows
        = (get_cached_name now ttl st phone).2 ∨
    ∃ n, n ≠ "" ∧
      (fetch_caller_name_with_cache provider now ttl st phone).rows
        = cache_name now (get_cached_name now ttl st phone).2 phone n := by
  unfold fetch_caller_name_with_cache
  by_cases hc : truthyOpt (get_cached_name now ttl st phone).1
  · simp [hc]
  · simp only [Bool.not_eq_true] at hc
    simp only [hc, Bool.false_eq_true, if_false]
    cases hp : provider phone with
    | error e => simp
    | ok cn =>
        cases cn with
        | none => simp
        | some n =>
            by_cases hn : truthyStr n
            · right
              exact ⟨n, (truthyStr_eq_true_iff n).mp hn, by simp [hn]⟩
            · simp [hn]

theorem fetch_providerCalls_le_one (provider : Provider) (now ttl : Int)
    (st : Table) (phone : String) :
    (fetch_caller_name_with_cache provider now ttl st phone).providerCalls ≤ 1 := by
  unfold fetch_caller_name_with_cache
  by_cases hc : truthyOpt (get_cached_name now ttl st phone).1
  · simp [hc]
  · simp only [Bool.not_eq_true] at hc
    simp only [hc, Bool.false_eq_true, if_false]
    cases hp : provider phone with
    | error e => simp
    | ok cn =>
        cases cn with
        | none => simp
        | some n =>
            by_cases hn : truthyStr n
            · simp [hn]
            · simp [hn]

theorem fetch_providerCalls_of_falsy (provider : Provider) (now ttl : Int)
    (st : Table) (phone : String)
    (h : truthyOpt (get_cached_name now ttl st phone).1 = false) :
    (fetch_caller_name_with_cache provider now ttl st phone).providerCalls = 1 := by
  unfold fetch_caller_name_with_cache
  simp only [h, Bool.false_eq_true, if_false]
  cases hp : provider phone with
  | error e => simp
  | ok cn =>
      cases cn with
      | none => simp
      | some n =>
          by_cases hn : truthyStr n
          · simp [hn]
          · simp [hn]

theorem get_cached_name_of_none (now ttl : Int) (st : Table) (phone : String)
    (h : st.find? (fun r => r.phone_number == phone) = none) :
    get_cached_name now ttl st phone = (none, st) := by
  unfold get_cached_name
  rw [h]

theorem get_cached_name_of_some (now ttl : Int) (st : Table) (phone : String)
    (r : Row) (h : st.find? (fun r => r.phone_number == phone) = some r) :
    get_cached_name now ttl st phone
      = if now - r.timestamp < ttl then (some r.name, st)
        else (none, st.filter (fun r => r.phone_number != phone)) := by
  unfold get_cached_name
  rw [h]

theorem get_falsy_persists (now now2 ttl : Int) (st : Table) (phone : String)
    (h : truthyOpt (get_cached_name now ttl st phone).1 = false) :
    truthyOpt (get_cached_name now2 ttl
      (get_cached_name now ttl st phone).2 phone).1 = false := by
  cases hfind : st.find? (fun r => r.phone_number == phone) with
  | none =>
      simp only [get_cached_name_of_none now ttl st phone hfind]
      simp only [get_cached_name_of_none now2 ttl st phone hfind]
      rfl
  | some r =>
      by_cases hts : now - r.timestamp < ttl
      · simp only [get_cached_name_of_some now ttl st phone r hfind, if_pos hts] at h ⊢
        by_cases hts2 : now2 - r.timestamp < ttl
        · simp only [get_cached_name_of_some now2 ttl st phone r hfind, if_pos hts2]
          exact h
        · simp only [get_cached_name_of_some now2 ttl st phone r hfind, if_neg hts2]
          rfl
      · simp only [get_cached_name_of_some now ttl st phone r hfind, if_neg hts]
        simp only [get_cached_name_of_none now2 ttl
          (st.filter (fun r => r.phone_number != phone)) phone
          (find?_filter_ne_key st phone)]
        rfl

theorem filter_cache_name_self (st : Table) (k n : String) (t : Int) :
    (cache_name t st k n).filter (fun r => r.phone_number == k) = [⟨k, n, t⟩] := by
  unfold cache_name
  rw [List.filter_append]
  have h0 : (st.filter (fun r => r.phone_number != k)).filter
      (fun r => r.phone_number == k) = [] := by
    rw [List.filter_eq_nil_iff]
    intro r hr
    simpa using mem_filter_ne_key hr
  rw [h0]
  simp

theorem keyUnique_filter (st : Table) (q : Row → Bool) (h : keyUnique st) :
    keyUnique (st.filter q) :=
  fun k => le_trans (countP_filter_le _ q st) (h k)

theorem keyUnique_cache_name (st : Table) (k n : String) (t : Int)
    (h : keyUnique st) : keyUnique (cache_name t st k n) := by
  intro k'
  unfold cache_name
  rw [List.countP_append]
  by_cases hk : k = k'
  · subst hk
    have h0 : (st.filter (fun r => r.phone_number != k)).countP
        (fun r => r.phone_number == k) = 0 := by
      rw [List.countP_eq_zero]
      intro r hr
      simpa using mem_filter_ne_key hr
    rw [h0]
    simp [List.countP_cons]
  · have h1 : (st.filter (fun r => r.phone_number != k)).countP
        (fun r => r.phone_number == k') ≤ 1 :=
      le_trans (countP_filter_le _ _ st) (h k')
    have h2 : (([⟨k, n, t⟩] : Table)).countP (fun r => r.phone_number == k') = 0 := by
      simp [List.countP_cons, hk]
    omega

theorem keyUnique_get_cached_name (now ttl : Int) (st : Table) (phone : String)
    (h : keyUnique st) : keyUnique (get_cached_name now ttl st phone).2 := by
  rcases get_cached_name_snd_cases now ttl st phone with he | he <;> rw [he]
  · exact h
  · exact keyUnique_filter st _ h

theorem keyUnique_fetch (provider : Provider) (now ttl : Int) (st : Table)
    (phone : String) (h : keyUnique st) :
    keyUnique (fetch_caller_name_with_cache provider now ttl st phone).rows := by
  rcases fetch_rows_cases provider now ttl st phone with he | ⟨n, _, he⟩ <;> rw [he]
  · exact keyUnique_get_cached_name now ttl st phone h
  · exact keyUnique_cache_name _ _ _ _ (keyUnique_get_cached_name now ttl st phone h)

theorem namesNonEmpty_filter (st : Table) (q : Row → Bool)
    (h : namesNonEmpty st) : namesNonEmpty (st.filter q) :=
  fun r hr => h r (List.mem_of_mem_filter hr)

theorem namesNonEmpty_cache_name (st : Table) (k n : String) (t : Int)
    (h : namesNonEmpty st) (hn : n ≠ "") :
    namesNonEmpty (cache_name t st k n) := by
  intro r hr
  rcases List.mem_append.mp hr with h1 | h2
  · exact h r (List.mem_of_mem_filter h1)
  · have : r = ⟨k, n, t⟩ := by simpa using h2
    rw [this]
    exact hn

theorem namesNonEmpty_get_cached_name (now ttl : Int) (st : Table)
    (phone : String) (h : namesNonEmpty st) :
    namesNonEmpty (get_cached_name now ttl st phone).2 := by
  rcases get_cached_name_snd_cases now ttl st phone with he | he <;> rw [he]
  · exact h
  · exact namesNonEmpty_filter st _ h

theorem namesNonEmpty_fetch (provider : Provider) (now ttl : Int) (st : Table)
    (phone : String) (h : namesNonEmpty st) :
    namesNonEmpty (fetch_caller_name_with_cache provider now ttl st phone).rows := by
  rcases fetch_rows_cases provider now ttl st phone with he | ⟨n, hn, he⟩ <;> rw [he]
  · exact namesNonEmpty_get_cached_name now ttl st phone h
  · exact namesNonEmpty_cache_name _ _ _ _
      (namesNonEmpty_get_cached_name now ttl st phone h) hn

theorem fetch_spec (provider : Provider) (now ttl : Int) (st : Table)
    (phone : String) :
    (truthyOpt (get_cached_name now ttl st phone).1 = true →
      fetch_caller_name_with_cache provider now ttl st phone
        = ⟨.ok (get_cached_name now ttl st phone).1,
           (get_cached_name now ttl st phone).2, 0⟩)
    ∧ (truthyOpt (get_cached_name now ttl st phone).1 = false →
        (∀ e, provider phone = .error e →
          fetch_caller_name_with_cache provider now ttl st phone
            = ⟨.error e, (get_cached_name now ttl st phone).2, 1⟩)
        ∧ (∀ cn, provider phone = .ok cn → truthyOpt cn = false →
            fetch_caller_name_with_cache provider now ttl st phone
              = ⟨.ok cn, (get_cached_name now ttl st phone).2, 1⟩)
        ∧ (∀ n, provider phone = .ok (some n) → truthyStr n = true →
            fetch_caller_name_with_cache provider now ttl st phone
              = ⟨.ok (some n),
                 cache_name now (get_cached_name now ttl st phone).2 phone n, 1⟩)) := by
  constructor
  · intro hc
    unfold fetch_caller_name_with_cache
    simp [hc]
  · intro hc
    refine ⟨?_, ?_, ?_⟩
    · intro e he
      unfold fetch_caller_name_with_cache
      simp [hc, he]
    · intro cn hcn hf
      unfold fetch_caller_name_with_cache
      cases cn with
      | none => simp [hc, hcn]
      | some n =>
          have hn : truthyStr n = false := by simpa [truthyOpt] using hf
          simp [hc, hcn, hn]
    · intro n hn ht
      unfold fetch_caller_name_with_cache
      simp [hc, hn, ht]

theorem verify_record_snd (provider : Provider) (now ttl : Int) (st : Table)
    (p c : String) :
    (verify_record provider now ttl st p c).2
      = (fetch_caller_name_with_cache provider now ttl st p).rows := by
  unfold verify_record
  cases h : (fetch_caller_name_with_cache provider now ttl st p).result with
  | error e => simp [h]
  | ok caller_name => simp [h]

theorem verify_all_loop_namesNonEmpty (provider : Provider) (now ttl : Int)
    (recs : List (String × String)) :
    ∀ st : Table, namesNonEmpty st →
      namesNonEmpty (verify_all_loop provider now ttl recs st).2 := by
  induction recs with
  | nil =>
      intro st h
      simpa [verify_all_loop] using h
  | cons pc rest ih =>
      intro st h
      obtain ⟨p, c⟩ := pc
      simp only [verify_all_loop]
      apply ih
      rw [verify_record_snd]
      exact namesNonEmpty_fetch provider now ttl st p h

/-- Claim C1: an entry written to the cache at time `T` is returned by
`get_cached_name` for every read at time `Tr` with `Tr - T < TTL`; for any
read with `Tr - T >= TTL` the entry is treated as absent and is removed from
the table (eager eviction), so a stale entry is never observed as a hit. -/
theorem C1_cache_freshness (st : Table) (phone n : String) (T Tr ttl : Int) :
    (Tr - T < ttl →
      get_cached_name Tr ttl (cache_name T st phone n) phone
        = (some n, cache_name T st phone n))
    ∧ (ttl ≤ Tr - T →
      (get_cached_name Tr ttl (cache_name T st phone n) phone).1 = none
      ∧ ∀ r ∈ (get_cached_name Tr ttl (cache_name T st phone n) phone).2,
          r.phone_number ≠ phone) := by
  have hfind := find?_cache_name st phone n T
  constructor
  · intro hfresh
    rw [get_cached_name_of_some Tr ttl _ phone ⟨phone, n, T⟩ hfind]
    rw [if_pos hfresh]
  · intro hstale
    rw [get_cached_name_of_some Tr ttl _ phone ⟨phone, n, T⟩ hfind,
        if_neg (not_lt.mpr hstale)]
    exact ⟨rfl, fun r hr => mem_filter_ne_key hr⟩

/-- Witness for C1 at a concrete entry: a read 10 seconds after the write
(TTL 3600) hits and returns the name; a read exactly at the TTL misses. -/
theorem C1_cache_freshness_witness :
    get_cached_name 10 3600 (cache_name 0 [] "+15551234567" "John Doe")
        "+15551234567"
      = (some "John Doe", cache_name 0 [] "+15551234567" "John Doe")
    ∧ (get_cached_name 3600 3600 (cache_name 0 [] "+15551234567" "John Doe")
        "+15551234567").1 = none := by
  exact ⟨(C1_cache_freshness [] "+15551234567" "John Doe" 0 10 3600).1 (by decide),
         ((C1_cache_freshness [] "+15551234567" "John Doe" 0 3600 3600).2
           (by decide)).1⟩

/-- Claim C7: `cache_name` upserts unconditionally with the current
timestamp: after `put(k, "A")` then `put(k, "B")` the table holds exactly
one row for `k`, carrying name `"B"` and the second timestamp; and every
cache operation (`cache_name`, `get_cached_name`, the resolver) preserves
the at-most-one-row-per-phone-number invariant. -/
theorem C7_cache_put_upsert :
    (∀ (st : Table) (k a b : String) (t1 t2 : Int),
      (cache_name t2 (cache_name t1 st k a) k b).filter
          (fun r => r.phone_number == k) = [⟨k, b, t2⟩]
      ∧ (cache_name t2 (cache_name t1 st k a) k b).countP
          (fun r => r.phone_number == k) = 1)
    ∧ (∀ st : Table, keyUnique st →
        (∀ (k n : String) (t : Int), keyUnique (cache_name t st k n))
        ∧ (∀ (now ttl : Int) (phone : String),
            keyUnique (get_cached_name now ttl st phone).2)
        ∧ (∀ (provider : Provider) (now ttl : Int) (phone : String),
            keyUnique
              (fetch_caller_name_with_cache provider now ttl st phone).rows)) := by
  constructor
  · intro st k a b t1 t2
    have h := filter_cache_name_self (cache_name t1 st k a) k b t2
    refine ⟨h, ?_⟩
    rw [List.countP_eq_length_filter, h]
    rfl
  · intro st h
    exact ⟨fun k n t => keyUnique_cache_name st k n t h,
           fun now ttl phone => keyUnique_get_cached_name now ttl st phone h,
           fun provider now ttl phone => keyUnique_fetch provider now ttl st phone h⟩

/-- Witness for C7: the double put on a concrete number leaves exactly the
second row, and key uniqueness holds after a put into the empty table. -/
theorem C7_cache_put_upsert_witness :
    (cache_name 5 (cache_name 3 [] "+15551234567" "A") "+15551234567" "B").filter
        (fun r => r.phone_number == "+15551234567") = [⟨"+15551234567", "B", 5⟩]
    ∧ keyUnique (cache_name 3 [] "+15551234567" "A") := by
  have h0 : keyUnique ([] : Table) := by
    intro k
    simp
  exact ⟨(C7_cache_put_upsert.1 [] "+15551234567" "A" "B" 3 5).1,
         (C7_cache_put_upsert.2 [] h0).1 "+15551234567" "A" 3⟩

/-- Claim C9: starting from a cache whose names are all non-empty, the
resolver keeps every cached name non-empty (it writes only truthy provider
results), a fresh cache hit in the resolver (an execution with zero provider
calls) always returns a non-empty name, and the bulk-verification loop
preserves the invariant as well; so an empty name can never be served from
the cache. -/
theorem C9_resolver_nonempty_names (provider : Provider) (now ttl : Int)
    (st : Table) (phone : String) (h : namesNonEmpty st) :
    namesNonEmpty (fetch_caller_name_with_cache provider now ttl st phone).rows
    ∧ ((fetch_caller_name_with_cache provider now ttl st phone).providerCalls = 0 →
        ∃ n, (fetch_caller_name_with_cache provider now ttl st phone).result
            = .ok (some n) ∧ n ≠ "")
    ∧ ∀ recs : List (String × String),
        namesNonEmpty (verify_all_loop provider now ttl recs st).2 := by
  refine ⟨namesNonEmpty_fetch provider now ttl st phone h, ?_, ?_⟩
  · intro hz
    by_cases hc : truthyOpt (get_cached_name now ttl st phone).1 = true
    · obtain ⟨n, hn, hne⟩ :=
        (truthyOpt_eq_true_iff (get_cached_name now ttl st phone).1).mp hc
      have hfetch := (fetch_spec provider now ttl st phone).1 hc
      refine ⟨n, ?_, hne⟩
      rw [hfetch]
      simp [hn]
    · have hcf : truthyOpt (get_cached_name now ttl st phone).1 = false := by
        rwa [Bool.not_eq_true] at hc
      have := fetch_providerCalls_of_falsy provider now ttl st phone hcf
      omega
  · intro recs
    exact verify_all_loop_namesNonEmpty provider now ttl recs st h

/-- Witness for C9: from the empty cache, resolving a number whose provider
name is `"John Doe"` leaves only non-empty names cached. -/
theorem C9_resolver_nonempty_names_witness :
    namesNonEmpty (fetch_caller_name_with_cache
      (fun _ => Except.ok (some "John Doe")) 0 3600 [] "+15551234567").rows := by
  have h0 : namesNonEmpty ([] : Table) := by
    intro r hr
    cases hr
  exact (C9_resolver_nonempty_names (fun _ => Except.ok (some "John Doe"))
    0 3600 [] "+15551234567" h0).1

/-- Claim C2: the resolver consults the cache first and on a (truthy) hit
returns the cached name with no provider call and no cache write; on a miss
it calls the provider exactly once, writes the result to the cache before
returning iff the provider returned a non-empty name, and returns the falsy
result without any cache write otherwise — so after an empty/absent provider
answer a subsequent resolve for the number calls the provider again. -/
theorem C2_resolver_cache_first (provider : Provider) (now ttl : Int)
    (st : Table) (phone : String) :
    (truthyOpt (get_cached_name now ttl st phone).1 = true →
      fetch_caller_name_with_cache provider now ttl st phone
        = ⟨.ok (get_cached_name now ttl st phone).1,
           (get_cached_name now ttl st phone).2, 0⟩)
    ∧ (truthyOpt (get_cached_name now ttl st phone).1 = false →
        (fetch_caller_name_with_cache provider now ttl st phone).providerCalls = 1
        ∧ (∀ n, provider phone = .ok (some n) → truthyStr n = true →
            fetch_caller_name_with_cache provider now ttl st phone
              = ⟨.ok (some n),
                 cache_name now (get_cached_name now ttl st phone).2 phone n, 1⟩)
        ∧ (∀ cn, provider phone = .ok cn → truthyOpt cn = false →
            (fetch_caller_name_with_cache provider now ttl st phone).result = .ok cn
            ∧ (fetch_caller_name_with_cache provider now ttl st phone).rows
                = (get_cached_name now ttl st phone).2
            ∧ ∀ now2, (fetch_caller_name_with_cache provider now2 ttl
                  (fetch_caller_name_with_cache provider now ttl st phone).rows
                  phone).providerCalls = 1)) := by
  constructor
  · exact (fetch_spec provider now ttl st phone).1
  · intro hc
    refine ⟨fetch_providerCalls_of_falsy provider now ttl st phone hc, ?_, ?_⟩
    · exact ((fetch_spec provider now ttl st phone).2 hc).2.2
    · intro cn hcn hf
      have hfetch := ((fetch_spec provider now ttl st phone).2 hc).2.1 cn hcn hf
      rw [hfetch]
      refine ⟨rfl, rfl, ?_⟩
      intro now2
      exact fetch_providerCalls_of_falsy provider now2 ttl
        (get_cached_name now ttl st phone).2 phone
        (get_falsy_persists now now2 ttl st phone hc)

/-- Witness for C2 at a concrete input: with a provider that reports no
caller name, a resolve from the empty cache calls the provider, and a second
resolve five seconds later calls it again (nothing was cached). -/
theorem C2_resolver_cache_first_witness :
    (fetch_caller_name_with_cache (fun _ => Except.ok none) 0 3600 []
        "+15551234567").providerCalls = 1
    ∧ (fetch_caller_name_with_cache (fun _ => Except.ok none) 5 3600
        (fetch_caller_name_with_cache (fun _ => Except.ok none) 0 3600 []
          "+15551234567").rows "+15551234567").providerCalls = 1 := by
  have h := (C2_resolver_cache_first (fun _ => Except.ok none) 0 3600 []
    "+15551234567").2 (by decide)
  exact ⟨h.1, ((h.2.2 none rfl (by decide)).2.2 5)⟩

/-- Counterexample to claim C4 as stated: with a provider that returns an
absent name, two resolves for the same number 1 second apart (well inside
the 3600-second TTL window) issue two provider calls, not at most one —
absent results are deliberately not cached. -/
theorem C4_idempotence_counterexample :
    (1 : Int) - 0 < 3600
    ∧ ¬((fetch_caller_name_with_cache (fun _ => Except.ok none) 0 3600 []
          "+15557654321").providerCalls
        + (fetch_caller_name_with_cache (fun _ => Except.ok none) 1 3600
            (fetch_caller_name_with_cache (fun _ => Except.ok none) 0 3600 []
              "+15557654321").rows "+15557654321").providerCalls ≤ 1) := by
  decide

/-- Claim C4 (amended): when the first resolve returns a non-empty name,
two resolves within the TTL window issue at most one provider call in
total, and if the first resolve did call the provider, the second is a pure
cache hit returning the same name. -/
theorem C4_idempotence_amended (provider : Provider) (now1 now2 ttl : Int)
    (st : Table) (phone : String) (cn : Option String)
    (h1 : (fetch_caller_name_with_cache provider now1 ttl st phone).result = .ok cn)
    (h2 : truthyOpt cn = true)
    (h3 : now2 - now1 < ttl) :
    (fetch_caller_name_with_cache provider now1 ttl st phone).providerCalls
      + (fetch_caller_name_with_cache provider now2 ttl
          (fetch_caller_name_with_cache provider now1 ttl st phone).rows
          phone).providerCalls ≤ 1
    ∧ ((fetch_caller_name_with_cache provider now1 ttl st phone).providerCalls = 1 →
        (fetch_caller_name_with_cache provider now2 ttl
            (fetch_caller_name_with_cache provider now1 ttl st phone).rows
            phone).providerCalls = 0
        ∧ (fetch_caller_name_with_cache provider now2 ttl
            (fetch_caller_name_with_cache provider now1 ttl st phone).rows
            phone).result = .ok cn) := by
  obtain ⟨n, hcn, hnne⟩ := (truthyOpt_eq_true_iff cn).mp h2
  subst hcn
  by_cases hc : truthyOpt (get_cached_name now1 ttl st phone).1 = true
  · have hfetch := (fetch_spec provider now1 ttl st phone).1 hc
    rw [hfetch]
    have hle := fetch_providerCalls_le_one provider now2 ttl
      (get_cached_name now1 ttl st phone).2 phone
    constructor
    · simpa using hle
    · intro h10
      simp at h10
  · have hcf : truthyOpt (get_cached_name now1 ttl st phone).1 = false := by
      rwa [Bool.not_eq_true] at hc
    cases hp : provider phone with
    | error e =>
        have hfetch := ((fetch_spec provider now1 ttl st phone).2 hcf).1 e hp
        rw [hfetch] at h1
        simp at h1
    | ok cn2 =>
        by_cases ht2 : truthyOpt cn2 = true
        · obtain ⟨n2, hcn2, hn2⟩ := (truthyOpt_eq_true_iff cn2).mp ht2
          subst hcn2
          have hfetch := ((fetch_spec provider now1 ttl st phone).2 hcf).2.2 n2 hp
            ((truthyStr_eq_true_iff n2).mpr hn2)
          rw [hfetch] at h1 ⊢
          have hn2n : n2 = n := by
            simpa using h1
          subst hn2n
          have hfind := find?_cache_name (get_cached_name now1 ttl st phone).2
            phone n2 now1
          have hget2 := get_cached_name_of_some now2 ttl
            (cache_name now1 (get_cached_name now1 ttl st phone).2 phone n2)
            phone ⟨phone, n2, now1⟩ hfind
          rw [if_pos h3] at hget2
          have htr : truthyOpt (get_cached_name now2 ttl
              (cache_name now1 (get_cached_name now1 ttl st phone).2 phone n2)
              phone).1 = true := by
            rw [hget2]
            exact (truthyOpt_eq_true_iff _).mpr ⟨n2, rfl, hnne⟩
          have hfetch2 := (fetch_spec provider now2 ttl
            (cache_name now1 (get_cached_name now1 ttl st phone).2 phone n2)
            phone).1 htr
          rw [hfetch2, hget2]
          exact ⟨by simp, fun _ => ⟨rfl, rfl⟩⟩
        · have hff : truthyOpt cn2 = false := by
            rwa [Bool.not_eq_true] at ht2
          have hfetch := ((fetch_spec provider now1 ttl st phone).2 hcf).2.1 cn2 hp hff
          rw [hfetch] at h1
          have : cn2 = some n := by
            simpa using h1
          rw [this] at hff
          exact absurd ((truthyStr_eq_false_iff n).mp
            (by simpa [truthyOpt] using hff)) hnne

/-- Witness for C4 (amended) at a concrete input: provider name
`"John Doe"`, first resolve at 0, second at 10, TTL 3600 — one provider
call in total. -/
theorem C4_idempotence_amended_witness :
    (fetch_caller_name_with_cache (fun _ => Except.ok (some "John Doe")) 0 3600
        [] "+15551234567").providerCalls
      + (fetch_caller_name_with_cache (fun _ => Except.ok (some "John Doe")) 10
          3600 (fetch_caller_name_with_cache (fun _ => Except.ok (some "John Doe"))
            0 3600 [] "+15551234567").rows "+15551234567").providerCalls ≤ 1 := by
  exact (C4_idempotence_amended (fun _ => Except.ok (some "John Doe")) 0 10 3600
    [] "+15551234567" (some "John Doe") rfl (by decide) (by decide)).1

/-- Claim C3: for a phone number present in the directory (with a truthy
claimed name) whose resolution succeeds, `verify_identity` answers
`Identity Verified` iff the resolved caller name is non-empty and exactly,
case-sensitively, equal to the claimed name; every other successful
resolution (absent name or any mismatch) answers `Identity Invalid`. -/
theorem C3_exact_match (provider : Provider) (users : List (String × String))
    (now ttl : Int) (st : Table) (p claimed : String) (cn : Option String)
    (hp : p ≠ "")
    (hc : dictGet (dictOfPairs users) p = some claimed)
    (hcne : claimed ≠ "")
    (hres : (fetch_caller_name_with_cache provider now ttl st p).result = .ok cn) :
    ((verify_identity none provider (.ok users) now ttl (some p) st).1 = .verified
      ↔ cn = some claimed)
    ∧ ((verify_identity none provider (.ok users) now ttl (some p) st).1 = .verified
      ∨ (verify_identity none provider (.ok users) now ttl (some p) st).1 = .invalid) := by
  have hpe : p.isEmpty = false := by
    have := (truthyStr_eq_true_iff p).mpr hp
    simpa [truthyStr] using this
  have hce : claimed.isEmpty = false := by
    have := (truthyStr_eq_true_iff claimed).mpr hcne
    simpa [truthyStr] using this
  unfold verify_identity
  simp only [hpe, Bool.false_eq_true, if_false, hc, hce,
    fetch_caller_name_with_cache_failing, hres]
  cases cn with
  | none => simp
  | some s =>
      by_cases hs : s = claimed
      · subst hs
        have ht : truthyStr s = true := (truthyStr_eq_true_iff s).mpr hcne
        simp [ht]
      · have hbe : (s == claimed) = false := by
          simpa using hs
        simp [hbe, hs]

/-- Witness for C3 at the spec's example: claimed `"John Doe"`, resolved
`"john doe"` — a case difference — yields `Identity Invalid`. -/
theorem C3_exact_match_witness :
    (verify_identity none (fun _ => Except.ok (some "john doe"))
        (.ok local_mock_database) 0 3600 (some "+15551234567") []).1
      = .invalid := by
  have h := C3_exact_match (fun _ => Except.ok (some "john doe"))
    local_mock_database 0 3600 [] "+15551234567" "John Doe" (some "john doe")
    (by decide) (by decide) (by decide) rfl
  rcases h.2 with hv | hi
  · exact absurd (h.1.mp hv) (by decide)
  · exact hi

theorem verify_record_props (provider : Provider) (now ttl : Int) (st : Table)
    (p c : String) :
    (verify_record provider now ttl st p c).1.phone_number = p
    ∧ (verify_record provider now ttl st p c).1.claimed_name = c
    ∧ (((verify_record provider now ttl st p c).1.status = "Twilio Lookup Error"
        ∧ ∃ e, (verify_record provider now ttl st p c).1.error_detail = some e)
      ∨ (((verify_record provider now ttl st p c).1.status = "Identity Verified"
          ∨ (verify_record provider now ttl st p c).1.status = "Identity Invalid")
         ∧ (verify_record provider now ttl st p c).1.error_detail = none)) := by
  unfold verify_record
  cases h : (fetch_caller_name_with_cache provider now ttl st p).result with
  | error e => simp [h]
  | ok caller_name =>
      cases caller_name with
      | none => simp [h]
      | some s =>
          cases htc : (truthyStr s && s == c) with
          | false => simp [h, htc]
          | true => simp [h, htc]

theorem verify_all_loop_spec (provider : Provider) (now ttl : Int)
    (recs : List (String × String)) :
    ∀ st : Table,
      (verify_all_loop provider now ttl recs st).1.length = recs.length
      ∧ (verify_all_loop provider now ttl recs st).1.map
          VerificationResult.phone_number = recs.map Prod.fst
      ∧ (verify_all_loop provider now ttl recs st).1.map
          VerificationResult.claimed_name = recs.map Prod.snd
      ∧ ∀ r ∈ (verify_all_loop provider now ttl recs st).1,
          ((r.status = "Twilio Lookup Error" ∧ ∃ e, r.error_detail = some e)
            ∨ ((r.status = "Identity Verified" ∨ r.status = "Identity Invalid")
               ∧ r.error_detail = none)) := by
  induction recs with
  | nil =>
      intro st
      simp [verify_all_loop]
  | cons pc rest ih =>
      intro st
      obtain ⟨p, c⟩ := pc
      obtain ⟨hl, hm1, hm2, hmem⟩ := ih (verify_record provider now ttl st p c).2
      obtain ⟨hr1, hr2, hr3⟩ := verify_record_props provider now ttl st p c
      simp only [verify_all_loop, List.length_cons, List.map_cons]
      refine ⟨by rw [hl], by rw [hm1, hr1], by rw [hm2, hr2], ?_⟩
      intro r hr
      rcases List.mem_cons.mp hr with hhd | htl
      · rw [hhd]
        exact hr3
      · exact hmem r htl

/-- Claim C5: `verify_all_identities` yields one `VerificationResult` per
directory record, in the enumeration order of the user dict (phone and
claimed name copied from the record, output length equal to the number of
records), each carrying a `Twilio Lookup Error` status with the error detail
or a `Verified`/`Invalid` verdict; concretely, with three records whose
second provider call fails, the output has length 3 with element 2 in
error and elements 1 and 3 carrying verdicts — one failure does not abort
the rest. -/
theorem C5_verify_all_isolation :
    (∀ (provider : Provider) (now ttl : Int) (recs : List (String × String))
        (st : Table),
      (verify_all_loop provider now ttl recs st).1.length = recs.length
      ∧ (verify_all_loop provider now ttl recs st).1.map
          VerificationResult.phone_number = recs.map Prod.fst
      ∧ (verify_all_loop provider now ttl recs st).1.map
          VerificationResult.claimed_name = recs.map Prod.snd
      ∧ ∀ r ∈ (verify_all_loop provider now ttl recs st).1,
          ((r.status = "Twilio Lookup Error" ∧ ∃ e, r.error_detail = some e)
            ∨ ((r.status = "Identity Verified" ∨ r.status = "Identity Invalid")
               ∧ r.error_detail = none)))
    ∧ (∀ (provider : Provider) (users : List (String × String)) (now ttl : Int)
        (st : Table),
        (verify_all_identities provider (.ok users) now ttl st).1
          = .ok (verify_all_loop provider now ttl (dictOfPairs users) st).1
        ∧ ∀ e, (verify_all_identities provider (.error e) now ttl st).1 = .error e)
    ∧ (verify_all_loop
        (fun q => if q == "+15557654321" then Except.error "boom"
          else if q == "+15551234567" then Except.ok (some "John Doe")
          else Except.ok (some "Carol")) 0 3600
        (dictOfPairs [("+15551234567", "John Doe"), ("+15557654321", "Jane Smith"),
          ("+15553334444", "Jim Smith")]) []).1
      = [⟨"+15551234567", "John Doe", some "John Doe", "Identity Verified", none⟩,
         ⟨"+15557654321", "Jane Smith", none, "Twilio Lookup Error", some "boom"⟩,
         ⟨"+15553334444", "Jim Smith", some "Carol", "Identity Invalid", none⟩] := by
  refine ⟨?_, ?_, by decide⟩
  · intro provider now ttl recs st
    exact verify_all_loop_spec provider now ttl recs st
  · intro provider users now ttl st
    exact ⟨rfl, fun e => rfl⟩

/-- Witness for C5 at one concrete record: the output lists the record's
phone number, and its result satisfies the status/error dichotomy. -/
theorem C5_verify_all_isolation_witness :
    (verify_all_loop (fun _ => Except.ok (some "X")) 0 3600
        [("+15551234567", "X")] []).1.map VerificationResult.phone_number
      = ["+15551234567"]
    ∧ (((⟨"+15551234567", "X", some "X", "Identity Verified", none⟩
          : VerificationResult).status = "Twilio Lookup Error"
        ∧ ∃ e, (⟨"+15551234567", "X", some "X", "Identity Verified", none⟩
          : VerificationResult).error_detail = some e)
      ∨ (((⟨"+15551234567", "X", some "X", "Identity Verified", none⟩
            : VerificationResult).status = "Identity Verified"
          ∨ (⟨"+15551234567", "X", some "X", "Identity Verified", none⟩
            : VerificationResult).status = "Identity Invalid")
        ∧ (⟨"+15551234567", "X", some "X", "Identity Verified", none⟩
            : VerificationResult).error_detail = none)) := by
  have h := C5_verify_all_isolation.1 (fun _ => Except.ok (some "X"))
    0 3600 [("+15551234567", "X")] []
  exact ⟨h.2.1, h.2.2.2 _ (by decide)⟩

/-- Claim C6 (code behavior at the failing input): when the SQLite cache
get raises a storage error, `verify_identity` returns the 500
`lookupFailed` response carrying that error — the failure IS surfaced to
the end caller and the request aborts — and the external provider is never
consulted, i.e. the code does not fall back to treating the failure as a
cache miss.  The failure is, at least, not treated as a cache hit. -/
theorem C6_cache_failure_surfaced :
    (verify_identity (some "disk error") (fun _ => Except.ok (some "John Doe"))
        (.ok local_mock_database) 0 3600 (some "+15551234567") []).1
      = .lookupFailed "disk error"
    ∧ VerifyResponse.statusCode
        (verify_identity (some "disk error") (fun _ => Except.ok (some "John Doe"))
          (.ok local_mock_database) 0 3600 (some "+15551234567") []).1 = 500
    ∧ (fetch_caller_name_with_cache_failing (some "disk error")
        (fun _ => Except.ok (some "John Doe")) 0 3600 [] "+15551234567").providerCalls
      = 0
    ∧ (verify_identity (some "disk error") (fun _ => Except.ok (some "John Doe"))
        (.ok local_mock_database) 0 3600 (some "+15551234567") []).1
      ≠ .verified := by
  decide

/-- Claim C8: with a non-empty phone number, an unreachable directory
yields the distinct `dirUnavailable` error response, a number absent from
the directory yields the distinct 404 `notFoundInDb` response, neither of
which is the `Invalid` (or `Verified`) verdict; and a `Verified`/`Invalid`
verdict is produced only when a truthy claimed name was actually obtained
from the directory. -/
theorem C8_directory_unavailable (storageErr : Option String)
    (provider : Provider) (now ttl : Int) (p : String) (st : Table)
    (hp : p ≠ "") :
    (∀ e, (verify_identity storageErr provider (.error e) now ttl (some p) st).1
        = .dirUnavailable e)
    ∧ (∀ users, dictGet (dictOfPairs users) p = none →
        (verify_identity storageErr provider (.ok users) now ttl (some p) st).1
          = .notFoundInDb)
    ∧ (∀ e, VerifyResponse.dirUnavailable e ≠ .invalid
        ∧ VerifyResponse.dirUnavailable e ≠ .verified)
    ∧ (VerifyResponse.notFoundInDb ≠ .invalid
        ∧ VerifyResponse.notFoundInDb ≠ .verified
        ∧ VerifyResponse.statusCode .notFoundInDb = 404)
    ∧ (∀ users,
        ((verify_identity storageErr provider (.ok users) now ttl (some p) st).1
            = .verified
          ∨ (verify_identity storageErr provider (.ok users) now ttl (some p) st).1
            = .invalid) →
        ∃ claimed, dictGet (dictOfPairs users) p = some claimed ∧ claimed ≠ "") := by
  have hpe : p.isEmpty = false := by
    have := (truthyStr_eq_true_iff p).mpr hp
    simpa [truthyStr] using this
  refine ⟨?_, ?_, ?_, ?_, ?_⟩
  · intro e
    unfold verify_identity
    simp [hpe]
  · intro users hnone
    unfold verify_identity
    simp [hpe, hnone]
  · intro e
    exact ⟨by simp, by simp⟩
  · exact ⟨by simp, by simp, rfl⟩
  · intro users hver
    unfold verify_identity at hver
    simp only [hpe, Bool.false_eq_true, if_false] at hver
    cases hgc : dictGet (dictOfPairs users) p with
    | none =>
        rw [hgc] at hver
        simp at hver
    | some claimed =>
        rw [hgc] at hver
        refine ⟨claimed, rfl, ?_⟩
        intro hemp
        subst hemp
        simp [show ("" : String).isEmpty = true from rfl] at hver

/-- Witness for C8: an unreachable directory produces the distinct error
response for a concrete number. -/
theorem C8_directory_unavailable_witness :
    (verify_identity none (fun _ => Except.ok none) (.error "conn") 0 3600
        (some "+15551234567") []).1 = .dirUnavailable "conn" := by
  exact (C8_directory_unavailable none (fun _ => Except.ok none) 0 3600
    "+15551234567" [] (by decide)).1 "conn"

/-- Claim C10: the verification routes never change the global
`stored_caller_name`; the lookup route overwrites it on every successful
execution with the resolved value, even when that value is absent, in which
case the subsequent `/get_caller_name` reports not-found regardless of what
was stored before. -/
theorem C10_global_last_resolved (storageErr : Option String)
    (provider : Provider) (dirFetch : Except String (List (String × String)))
    (now ttl : Int) (phone_q : Option String) (st : AppState) (p : String)
    (cn : Option String) (hp : p ≠ "")
    (hres : (fetch_caller_name_with_cache provider now ttl st.rows p).result
      = .ok cn) :
    (verify_identity_app storageErr provider dirFetch now ttl phone_q
        st).2.stored_caller_name = st.stored_caller_name
    ∧ (verify_all_identities_app provider dirFetch now ttl
        st).2.stored_caller_name = st.stored_caller_name
    ∧ (lookup_phone_number provider now ttl (some p) st).2.stored_caller_name
        = cn
    ∧ (truthyOpt cn = false →
        get_caller_name (lookup_phone_number provider now ttl (some p) st).2
          = .notLookedUp) := by
  have hpe : p.isEmpty = false := by
    have := (truthyStr_eq_true_iff p).mpr hp
    simpa [truthyStr] using this
  have hlook : (lookup_phone_number provider now ttl (some p) st).2.stored_caller_name
      = cn := by
    unfold lookup_phone_number
    simp only [hpe, Bool.false_eq_true, if_false, hres]
    cases cn with
    | none => rfl
    | some s =>
        cases hts : truthyStr s with
        | false => simp [hts]
        | true => simp [hts]
  refine ⟨rfl, rfl, hlook, ?_⟩
  intro hf
  unfold get_caller_name
  rw [hlook]
  cases cn with
  | none => rfl
  | some s =>
      have hts : truthyStr s = false := by
        simpa [truthyOpt] using hf
      simp [hts]

/-- Witness for C10: a first lookup stores `"Alice"`; a second lookup for a
number the provider cannot name overwrites the global with the absent
value, so `/get_caller_name` then answers not-found. -/
theorem C10_global_last_resolved_witness :
    (lookup_phone_number
        (fun q => if q == "+15551234567" then Except.ok (some "Alice")
          else Except.ok none) 0 3600 (some "+15551234567")
        ⟨[], none⟩).2.stored_caller_name = some "Alice"
    ∧ get_caller_name
        (lookup_phone_number
          (fun q => if q == "+15551234567" then Except.ok (some "Alice")
            else Except.ok none) 1 3600 (some "+15559999999")
          (lookup_phone_number
            (fun q => if q == "+15551234567" then Except.ok (some "Alice")
              else Except.ok none) 0 3600 (some "+15551234567")
            ⟨[], none⟩).2).2 = .notLookedUp := by
  have h1 := C10_global_last_resolved none
    (fun q => if q == "+15551234567" then Except.ok (some "Alice")
      else Except.ok none)
    (.ok local_mock_database) 0 3600 none ⟨[], none⟩ "+15551234567"
    (some "Alice") (by decide) rfl
  have h2 := C10_global_last_resolved none
    (fun q => if q == "+15551234567" then Except.ok (some "Alice")
      else Except.ok none)
    (.ok local_mock_database) 1 3600 none
    (lookup_phone_number
      (fun q => if q == "+15551234567" then Except.ok (some "Alice")
        else Except.ok none) 0 3600 (some "+15551234567") ⟨[], none⟩).2
    "+15559999999" none (by decide) rfl
  exact ⟨h1.2.2.1, h2.2.2.2 (by decide)⟩
